import Mathlib

/-!
Shallow embedding of `src/bot.py` ("Bot da Chave"): a Telegram bot tracking
the holder of a shared key among a fixed roster (`EMPREGADOS`), persisting
state to a JSON file (`state.json`) and appending transfer/reset events to a
CSV log (`log.csv`).

Python values that flow through the state file are dynamically typed (the
`State` dataclass performs no type validation), so the persisted `State`
fields are modelled as JSON scalar values (`Val`) — the only kind of value
the program itself ever stores.  The handlers of the bot are modelled as
pure functions over an explicit `World` holding the in-memory state, the
persisted state file, and the log file; fallible Telegram transport calls
are modelled by a `Transport` record of outcomes.
-/

namespace Boti

/-- A JSON scalar value, as stored in the fields of the `State` dataclass
(`str`, `int`, `None`, or `bool` after a round-trip through `json`). -/
inductive Val where
  | null : Val
  | bool (b : Bool) : Val
  | int (n : Int) : Val
  | str (s : String) : Val
deriving DecidableEq, Repr

/-- Python truthiness of a value (`if x:`). -/
def Val.truthy : Val → Bool
  | .null => false
  | .bool b => b
  | .int n => n != 0
  | .str s => s != ""

/-- A parsed `state.json` document: either a JSON object whose values are
scalars, or some other JSON value (number, string, array, ...), which the
`State` constructor call `cls(**data)` rejects. -/
inductive Doc where
  | scalar (v : Val) : Doc
  | obj (fields : List (String × Val)) : Doc
deriving DecidableEq, Repr

/-- The content of `state.json` once read: either text that fails
`json.loads`, or a parsed JSON document. -/
inductive FileContent where
  | malformed : FileContent
  | json (d : Doc) : FileContent
deriving DecidableEq, Repr

/-- The constant `EMPREGADOS` from `bot.py`: the roster of authorised holders. -/
def EMPREGADOS : List String :=
  ["Secretaria",
   "Lucas", "André", "Pâmela", "Maria Cecília", "Lívia", "Loreena",
   "Duda", "Maria Fernanda", "Jéssica", "Manoela", "Luara", "Enzo",
   "Maria Gabriela", "Guilherme"]

/-- The constant `SECRETARIA` from `bot.py`. -/
def SECRETARIA : String := "Secretaria"

/-- The constant `DEFAULT_HOLDER` from `bot.py`. -/
def DEFAULT_HOLDER : String := SECRETARIA

/-- The `State` dataclass of `bot.py`.  The Python fields are dynamically
typed (the dataclass performs no type validation), so each field holds a
JSON scalar. -/
structure State where
  current_holder : Val
  updated_at_iso : Val
  pinned_message_id : Val
  chat_id : Val
deriving DecidableEq, Repr

/-- The dataclass defaults of `State` (`t0` is the timestamp computed when
the class body is evaluated). -/
def State.default (t0 : String) : State :=
  { current_holder := .str DEFAULT_HOLDER
    updated_at_iso := .str t0
    pinned_message_id := .null
    chat_id := .null }

/-- The dictionary `self.__dict__` serialized by `json.dumps` in `State.save`. -/
def State.toDoc (s : State) : Doc :=
  .obj [("current_holder", s.current_holder),
        ("updated_at_iso", s.updated_at_iso),
        ("pinned_message_id", s.pinned_message_id),
        ("chat_id", s.chat_id)]

/-- What `State.save` writes to `state.json`. -/
def State.save (s : State) : FileContent := .json s.toDoc

/-- The keyword parameters accepted by the `State` constructor. -/
def stateFields : List String :=
  ["current_holder", "updated_at_iso", "pinned_message_id", "chat_id"]

/-- Last binding of a key in an association list (Python dicts built by
`json.loads` keep the last duplicate). -/
def lookupLast : List (String × Val) → String → Option Val
  | [], _ => none
  | (k', v) :: rest, k =>
      match lookupLast rest k with
      | some w => some w
      | none => if k' == k then some v else none

/-- The constructor call `cls(**data)` in `State.load`: it succeeds exactly when `data` is a JSON
object all of whose keys are `State` field names; absent fields take the
dataclass defaults, and no validation of the values happens. -/
def State.fromDoc (t0 : String) : Doc → Option State
  | .obj kvs =>
      if kvs.all (fun kv => stateFields.contains kv.1) then
        some { current_holder := (lookupLast kvs "current_holder").getD (.str DEFAULT_HOLDER)
               updated_at_iso := (lookupLast kvs "updated_at_iso").getD (.str t0)
               pinned_message_id := (lookupLast kvs "pinned_message_id").getD .null
               chat_id := (lookupLast kvs "chat_id").getD .null }
      else none
  | .scalar _ => none

/-- The classmethod `State.load`; `none` means `state.json` does not exist, and any failure
(unparsable text or a constructor error) falls back to the default state. -/
def State.load (t0 : String) : Option FileContent → State
  | none => State.default t0
  | some .malformed => State.default t0
  | some (.json d) => (State.fromDoc t0 d).getD (State.default t0)

/-- Python equality between a dynamically typed value and a `str`. -/
def Val.eqStr : Val → String → Bool
  | .str s, t => s == t
  | _, _ => false

/-- Python equality between a dynamically typed value and an `int`
(`True == 1` and `False == 0` hold in Python). -/
def Val.eqInt : Val → Int → Bool
  | .int m, n => m == n
  | .bool b, n => (if b then (1 : Int) else 0) == n
  | _, _ => false

/-- The header row written by `ensure_log_header`. -/
def LOG_HEADER : List String :=
  ["timestamp_utc", "acao", "de", "para", "by_user_id", "chat_id"]

/-- The function `ensure_log_header`: opening `log.csv` in append mode creates it when
absent, and the header row is written exactly when the file did not exist
before the call.  `none` models an absent file; a row keeps the Python
values handed to `csv.writer.writerow`. -/
def ensure_log_header : Option (List (List Val)) → List (List Val)
  | none => [LOG_HEADER.map Val.str]
  | some rows => rows

/-- The function `log_event`: it makes sure the log exists, then appends one row
`[utcnow_iso(), action, de, para, by_user_id, chat_id]`. -/
def log_event (now : String) (action : String) (de : Val) (para : String)
    (by_user_id chatId : Int) (file : Option (List (List Val))) : List (List Val) :=
  ensure_log_header file ++
    [[.str now, .str action, de, .str para, .int by_user_id, .int chatId]]

/-- Outcome of the fallible Telegram transport calls a handler makes:
whether `edit_message_text` succeeds, the message id Telegram assigns to a
newly sent message, and whether `pin_chat_message` succeeds.  `pinOk` never
influences any result because pin failures are swallowed. -/
structure Transport where
  editOk : Bool
  newMessageId : Int
  pinOk : Bool
deriving DecidableEq, Repr

/-- Telegram calls a handler attempts concerning the pinned status
display. -/
inductive TCall where
  | editPinned (chatId messageId : Val) : TCall
  | newMessage (messageId : Int) : TCall
  | pin (chatId messageId : Int) : TCall
deriving DecidableEq, Repr

/-- The observable world of the bot process: the in-memory `state` global,
`state.json` and `log.csv` (`none` = file absent). -/
structure World where
  state : State
  stateFile : Option FileContent
  logFile : Option (List (List Val))
deriving DecidableEq, Repr

/-- The world at first run: default state, no `state.json`, no `log.csv`. -/
def initialWorld (t0 : String) : World :=
  { state := State.default t0, stateFile := none, logFile := none }

/-- The pinned-message refresh inside `cmd_reset` and `on_definir`:
`if state.chat_id and state.pinned_message_id: try edit ... except: pass`.
It only attempts an in-place edit; a failure is swallowed and nothing in
the world changes because of it. -/
def refresh_pinned (st : State) : List TCall :=
  if st.chat_id.truthy && st.pinned_message_id.truthy then
    [.editPinned st.chat_id st.pinned_message_id]
  else []

/-- Result of the `definir::<name>` callback handler. -/
structure DefinirResult where
  anterior : Val
  novo : Val
  world : World
  calls : List TCall
deriving DecidableEq, Repr

/-- The handler `on_definir` for the `definir::<name>` callback.  `novo` is whatever
follows the `::` in the callback data — no roster membership check happens.
The handler records the previous holder, mutates the state, saves it,
refreshes the pinned message (best-effort, so the result does not depend on
the transport outcome `tr`), and appends a `transferir` row to the log. -/
def on_definir (novo : String) (now : String) (actorId chatId : Int)
    (tr : Transport) (w : World) : DefinirResult :=
  let anterior := w.state.current_holder
  let st : State :=
    { w.state with current_holder := .str novo, updated_at_iso := .str now }
  { anterior := anterior
    novo := .str novo
    world :=
      { state := st
        stateFile := some st.save
        logFile := some (log_event now "transferir" anterior novo actorId chatId w.logFile) }
    calls := refresh_pinned st }

/-- Result of the `/reset` command handler. -/
structure ResetResult where
  anterior : Val
  world : World
  calls : List TCall
deriving DecidableEq, Repr

/-- The handler `cmd_reset`: it puts the key back at the Secretaria, saves, refreshes the
pinned message (best-effort, so the result does not depend on `tr`), and
appends a `reset` row to the log. -/
def cmd_reset (now : String) (actorId chatId : Int)
    (tr : Transport) (w : World) : ResetResult :=
  let anterior := w.state.current_holder
  let st : State :=
    { w.state with current_holder := .str SECRETARIA, updated_at_iso := .str now }
  { anterior := anterior
    world :=
      { state := st
        stateFile := some st.save
        logFile := some (log_event now "reset" anterior SECRETARIA actorId chatId w.logFile) }
    calls := refresh_pinned st }

/-- Result of the `/setup` command handler. -/
structure SetupResult where
  world : World
  calls : List TCall
deriving DecidableEq, Repr

/-- The handler `cmd_setup` (inside a group chat): it edits the recorded pinned message in
place when one is recorded for this chat and the edit succeeds; otherwise —
no display ref for this chat, or the edit raised — sends a new status
message, tries to pin it (pin failure swallowed), adopts it as the new
display ref and saves. -/
def cmd_setup (msgChatId : Int) (tr : Transport) (w : World) : SetupResult :=
  if w.state.pinned_message_id.truthy && w.state.chat_id.eqInt msgChatId then
    if tr.editOk then
      { world := w
        calls := [.editPinned w.state.chat_id w.state.pinned_message_id] }
    else
      let st : State :=
        { w.state with pinned_message_id := .int tr.newMessageId
                       chat_id := .int msgChatId }
      { world := { w with state := st, stateFile := some st.save }
        calls := [.editPinned w.state.chat_id w.state.pinned_message_id,
                  .newMessage tr.newMessageId, .pin msgChatId tr.newMessageId] }
  else
    let st : State :=
      { w.state with pinned_message_id := .int tr.newMessageId
                     chat_id := .int msgChatId }
    { world := { w with state := st, stateFile := some st.save }
      calls := [.newMessage tr.newMessageId, .pin msgChatId tr.newMessageId] }

/-- The function `build_transfer_keyboard`: the selectable holder buttons (the `Voltar`
button is not a target).  Skips `nome` when `exclude` is truthy and equal
to `nome` (`if exclude and nome == exclude: continue`). -/
def build_transfer_keyboard (exclude : Option Val) : List String :=
  EMPREGADOS.filter (fun nome =>
    match exclude with
    | none => true
    | some e => !(e.truthy && e.eqStr nome))

/-- The handler `on_transferir`: the keyboard it shows excludes the current holder
unless the holder equals `SECRETARIA`. -/
def on_transferir_keyboard (st : State) : List String :=
  build_transfer_keyboard
    (if st.current_holder.eqStr SECRETARIA then none else some st.current_holder)

/-- An engine operation a user can drive (a button transfer or `/reset`),
paired with a transport outcome when run. -/
inductive Op where
  | transfer (target : String) (now : String) (actorId chatId : Int) : Op
  | reset (now : String) (actorId chatId : Int) : Op
deriving DecidableEq, Repr

/-- Targets of a transfer operation are in the roster (`reset` has none). -/
def Op.targetOk : Op → Bool
  | .transfer t _ _ _ => EMPREGADOS.contains t
  | .reset _ _ _ => true

/-- Run one operation against the world. -/
def applyOp (w : World) : Op × Transport → World
  | (.transfer t n a c, tr) => (on_definir t n a c tr w).world
  | (.reset n a c, tr) => (cmd_reset n a c tr w).world

/-- Run a sequence of operations against the world. -/
def runOps (w : World) (steps : List (Op × Transport)) : World :=
  steps.foldl applyOp w

instance (op : Op) : Decidable op.targetOk :=
  match op with
  | .transfer t _ _ _ => inferInstanceAs (Decidable (EMPREGADOS.contains t = true))
  | .reset _ _ _ => inferInstanceAs (Decidable (true = true))

/-- A timestamp, transport outcome and worlds used for concrete runs. -/
def t0 : String := "2024-01-01T00:00:00+00:00"

/-- A transport on which every call succeeds, assigning message id 77. -/
def tr0 : Transport := { editOk := true, newMessageId := 77, pinOk := true }

/-- A transport whose `edit_message_text` raises; new messages get id 99. -/
def trFail : Transport := { editOk := false, newMessageId := 99, pinOk := true }

/-- The world at first run, at instant `t0`. -/
def w0 : World := initialWorld t0

/-- A world with the key at Lucas and a pinned status message 42 recorded in
chat 100. -/
def w1 : World :=
  { state := { current_holder := .str "Lucas", updated_at_iso := .str t0,
               pinned_message_id := .int 42, chat_id := .int 100 }
    stateFile := none
    logFile := none }

/-- A state with the key at Lucas and no display ref. -/
def st1 : State :=
  { current_holder := .str "Lucas", updated_at_iso := .str t0,
    pinned_message_id := .null, chat_id := .null }

/-- A world whose state is `st1`. -/
def w2 : World := { state := st1, stateFile := none, logFile := none }

/-- A two-operation run: transfer to Lucas, then reset. -/
def steps2 : List (Op × Transport) :=
  [(Op.transfer "Lucas" "2024-01-02T00:00:00+00:00" 1 100, tr0),
   (Op.reset "2024-01-03T00:00:00+00:00" 2 100, tr0)]

/-- Truth of `Val.eqStr` means equality with a string value. -/
theorem Val.eqStr_iff (v : Val) (s : String) : v.eqStr s = true ↔ v = .str s := by
  cases v <;> simp [Val.eqStr]

/-- Roster member names rendered as values are never the empty string. -/
theorem roster_mem_ne_empty : ∀ v ∈ EMPREGADOS.map Val.str, v ≠ Val.str "" := by
  decide

/-- Auxiliary invariant step: running operations whose transfer targets are
all in the roster keeps the current holder in the roster. -/
theorem holder_mem_aux (steps : List (Op × Transport)) (w : World)
    (hw : w.state.current_holder ∈ EMPREGADOS.map Val.str)
    (h : ∀ s ∈ steps, s.1.targetOk) :
    (runOps w steps).state.current_holder ∈ EMPREGADOS.map Val.str := by
  induction steps generalizing w with
  | nil => simpa [runOps] using hw
  | cons s rest ih =>
      have hs : s.1.targetOk := h s (List.mem_cons_self _ _)
      have hrest : ∀ x ∈ rest, x.1.targetOk := fun x hx => h x (List.mem_cons_of_mem _ hx)
      have hstep : (applyOp w s).state.current_holder ∈ EMPREGADOS.map Val.str := by
        rcases s with ⟨op, tr⟩
        cases op with
        | transfer t n a c =>
            have ht : t ∈ EMPREGADOS := by
              have := hs
              simp only [Op.targetOk] at this
              exact List.mem_of_elem_eq_true this
            exact List.mem_map_of_mem Val.str ht
        | reset n a c =>
            show Val.str SECRETARIA ∈ EMPREGADOS.map Val.str
            decide
      have htail := ih (applyOp w s) hstep hrest
      simpa [runOps, List.foldl] using htail

/-- C1 counterexample: Carol is not in the roster, yet a `definir::Carol`
callback from the initial world succeeds — it changes `current_holder` to
Carol, writes `state.json` and appends an audit row — instead of failing
with `InvalidHolder` and leaving state and log untouched. -/
theorem C1_counterexample :
    "Carol" ∉ EMPREGADOS ∧
    w0.state.current_holder = Val.str "Secretaria" ∧
    (on_definir "Carol" "2024-01-02T00:00:00+00:00" 5 100 tr0 w0).world.state.current_holder
      = Val.str "Carol" ∧
    (on_definir "Carol" "2024-01-02T00:00:00+00:00" 5 100 tr0 w0).world.stateFile ≠ w0.stateFile ∧
    (on_definir "Carol" "2024-01-02T00:00:00+00:00" 5 100 tr0 w0).world.logFile
      = some [LOG_HEADER.map Val.str,
              [Val.str "2024-01-02T00:00:00+00:00", Val.str "transferir",
               Val.str "Secretaria", Val.str "Carol", Val.int 5, Val.int 100]] := by
  decide

/-- C1 (amended): `on_definir` performs no roster-membership validation at
all: for every target — in the roster or not — the transfer succeeds, sets
the holder to the target, stamps `updated_at_iso`, persists the state and
appends a `transferir` audit row.  Targets are constrained only by the
keyboard that generates the callbacks. -/
theorem C1_amended (novo now : String) (a c : Int) (tr : Transport) (w : World) :
    (on_definir novo now a c tr w).world.state.current_holder = Val.str novo ∧
    (on_definir novo now a c tr w).world.state.updated_at_iso = Val.str now ∧
    (on_definir novo now a c tr w).world.stateFile
      = some (on_definir novo now a c tr w).world.state.save ∧
    (on_definir novo now a c tr w).world.logFile
      = some (ensure_log_header w.logFile ++
          [[Val.str now, Val.str "transferir", w.state.current_holder,
            Val.str novo, Val.int a, Val.int c]]) :=
  ⟨rfl, rfl, rfl, rfl⟩

/-- C2 counterexample: the single-transfer sequence `[transfer "Carol"]`
starting from the default state leaves `current_holder` outside the
roster. -/
theorem C2_counterexample :
    (runOps (initialWorld t0)
        [(Op.transfer "Carol" "2024-01-02T00:00:00+00:00" 5 100, tr0)]).state.current_holder
      ∉ EMPREGADOS.map Val.str := by
  decide

/-- C2 (amended): for every finite sequence of transfer and reset
operations starting from the default state *whose transfer targets are
roster members* (the only targets the keyboard offers), the current holder
after the sequence is a roster member and is never the empty string.  Every
prefix of such a sequence is again such a sequence, so the invariant holds
after each operation. -/
theorem C2_amended (t : String) (steps : List (Op × Transport))
    (h : ∀ s ∈ steps, s.1.targetOk) :
    (runOps (initialWorld t) steps).state.current_holder ∈ EMPREGADOS.map Val.str ∧
    (runOps (initialWorld t) steps).state.current_holder ≠ Val.str "" := by
  have hm := holder_mem_aux steps (initialWorld t)
    (show Val.str DEFAULT_HOLDER ∈ EMPREGADOS.map Val.str by decide) h
  exact ⟨hm, roster_mem_ne_empty _ hm⟩

/-- Witness for the amended C2 at a concrete two-operation run. -/
theorem C2_amended_witness :
    (runOps (initialWorld "T0") steps2).state.current_holder ∈ EMPREGADOS.map Val.str ∧
    (runOps (initialWorld "T0") steps2).state.current_holder ≠ Val.str "" :=
  C2_amended "T0" steps2 (by decide)

/-- C3: a reaffirmation (`target == current holder`) behaves exactly like
any other transfer: the handler returns the pair `(previous, previous)`,
sets `updated_at_iso` to the current instant, keeps the holder, persists
the state, and appends a fresh `transferir` audit row. -/
theorem C3_reaffirmation (novo now : String) (a c : Int) (tr : Transport) (w : World)
    (h : w.state.current_holder = Val.str novo) :
    (on_definir novo now a c tr w).anterior = Val.str novo ∧
    (on_definir novo now a c tr w).novo = Val.str novo ∧
    (on_definir novo now a c tr w).world.state.current_holder = Val.str novo ∧
    (on_definir novo now a c tr w).world.state.updated_at_iso = Val.str now ∧
    (on_definir novo now a c tr w).world.stateFile
      = some (on_definir novo now a c tr w).world.state.save ∧
    (on_definir novo now a c tr w).world.logFile
      = some (ensure_log_header w.logFile ++
          [[Val.str now, Val.str "transferir", Val.str novo,
            Val.str novo, Val.int a, Val.int c]]) := by
  refine ⟨h, rfl, rfl, rfl, rfl, ?_⟩
  simp only [on_definir, log_event, h]

/-- Witness for C3: reaffirming Lucas as holder in `w2`. -/
theorem C3_reaffirmation_witness :
    (on_definir "Lucas" "T1" 3 100 tr0 w2).anterior = Val.str "Lucas" ∧
    (on_definir "Lucas" "T1" 3 100 tr0 w2).novo = Val.str "Lucas" ∧
    (on_definir "Lucas" "T1" 3 100 tr0 w2).world.state.current_holder = Val.str "Lucas" ∧
    (on_definir "Lucas" "T1" 3 100 tr0 w2).world.state.updated_at_iso = Val.str "T1" ∧
    (on_definir "Lucas" "T1" 3 100 tr0 w2).world.stateFile
      = some (on_definir "Lucas" "T1" 3 100 tr0 w2).world.state.save ∧
    (on_definir "Lucas" "T1" 3 100 tr0 w2).world.logFile
      = some (ensure_log_header w2.logFile ++
          [[Val.str "T1", Val.str "transferir", Val.str "Lucas",
            Val.str "Lucas", Val.int 3, Val.int 100]]) :=
  C3_reaffirmation "Lucas" "T1" 3 100 tr0 w2 rfl

/-- C4 counterexample: the audit row appended by a transfer to the default
holder carries the action string `"transferir"`, not `"transfer"` as the
claim words it. -/
theorem C4_counterexample :
    (on_definir DEFAULT_HOLDER "2024-01-02T00:00:00+00:00" 1 100 tr0 w0).world.logFile
      = some [LOG_HEADER.map Val.str,
              [Val.str "2024-01-02T00:00:00+00:00", Val.str "transferir",
               Val.str "Secretaria", Val.str "Secretaria", Val.int 1, Val.int 100]] ∧
    Val.str "transferir" ≠ Val.str "transfer" := by
  decide

/-- C4 (amended): for every state, actor and chat, `cmd_reset` produces
exactly the same key state, the same persisted file and the same returned
previous holder as a transfer to `DEFAULT_HOLDER`, and the two appended
audit rows are identical in every field except the action cell, which is
`"reset"` for reset and `"transferir"` for transfer. -/
theorem C4_amended (now : String) (a c : Int) (tr : Transport) (w : World) :
    (cmd_reset now a c tr w).world.state
      = (on_definir DEFAULT_HOLDER now a c tr w).world.state ∧
    (cmd_reset now a c tr w).world.stateFile
      = (on_definir DEFAULT_HOLDER now a c tr w).world.stateFile ∧
    (cmd_reset now a c tr w).anterior
      = (on_definir DEFAULT_HOLDER now a c tr w).anterior ∧
    (cmd_reset now a c tr w).world.logFile
      = some (ensure_log_header w.logFile ++
          [[Val.str now, Val.str "reset", w.state.current_holder,
            Val.str SECRETARIA, Val.int a, Val.int c]]) ∧
    (on_definir DEFAULT_HOLDER now a c tr w).world.logFile
      = some (ensure_log_header w.logFile ++
          [[Val.str now, Val.str "transferir", w.state.current_holder,
            Val.str SECRETARIA, Val.int a, Val.int c]]) :=
  ⟨rfl, rfl, rfl, rfl, rfl⟩

/-- C5: `State.load` never propagates a failure: a missing `state.json`, a
file whose text fails `json.loads`, and a parsed document the `State`
constructor rejects all yield the default state — holder at
`DEFAULT_HOLDER`, with no display ref. -/
theorem C5_load_defaults (t : String) :
    State.load t none = State.default t ∧
    State.load t (some .malformed) = State.default t ∧
    (∀ d : Doc, State.fromDoc t d = none →
        State.load t (some (.json d)) = State.default t) ∧
    (State.default t).current_holder = Val.str DEFAULT_HOLDER ∧
    (State.default t).pinned_message_id = Val.null ∧
    (State.default t).chat_id = Val.null := by
  refine ⟨rfl, rfl, fun d hd => ?_, rfl, rfl, rfl⟩
  simp [State.load, hd]

/-- Witness for C5 at a parsed document (`7`, a bare JSON number) the
`State` constructor call rejects. -/
theorem C5_load_defaults_witness :
    State.load "T0" (some (.json (Doc.scalar (Val.int 7)))) = State.default "T0" :=
  (C5_load_defaults "T0").2.2.1 (Doc.scalar (Val.int 7)) rfl

/-- C6 counterexample: the header row `ensure_log_header` writes into a
fresh log uses the column names `acao`, `de`, `para`, `by_user_id` — not
`action`, `from`, `to`, `actor_id` as the claim words them. -/
theorem C6_counterexample :
    ensure_log_header none = [LOG_HEADER.map Val.str] ∧
    LOG_HEADER ≠ ["timestamp_utc", "action", "from", "to", "actor_id", "chat_id"] := by
  decide

/-- C6 (amended): `ensure_log_header` writes the fixed column header
`timestamp_utc, acao, de, para, by_user_id, chat_id` exactly when the log
file is absent, leaves an existing log unchanged, and is idempotent. -/
theorem C6_amended :
    ensure_log_header none = [LOG_HEADER.map Val.str] ∧
    LOG_HEADER = ["timestamp_utc", "acao", "de", "para", "by_user_id", "chat_id"] ∧
    (∀ rows, ensure_log_header (some rows) = rows) ∧
    (∀ f, ensure_log_header (some (ensure_log_header f)) = ensure_log_header f) :=
  ⟨rfl, rfl, fun _ => rfl, fun _ => rfl⟩

/-- C7: `save` followed by `load` is a round-trip — the reloaded state has
`current_holder`, `updated_at_iso`, `pinned_message_id` and `chat_id`
identical to the saved ones (indeed the whole state is equal). -/
theorem C7_save_load_roundtrip (t : String) (s : State) :
    State.load t (some s.save) = s := rfl

/-- C8 counterexample: during a transfer in `w1` (which records pinned
message 42 in chat 100) the edit of the pinned message fails
(`trFail.editOk = false`), yet no new display message is sent — the handler
only attempted the edit — and the stale `display_ref` (42, 100) is kept
rather than overwritten with the new message id of the transport. -/
theorem C8_counterexample :
    trFail.editOk = false ∧
    w1.state.pinned_message_id = Val.int 42 ∧
    (on_definir "Duda" "T1" 1 100 trFail w1).calls
      = [TCall.editPinned (Val.int 100) (Val.int 42)] ∧
    (on_definir "Duda" "T1" 1 100 trFail w1).world.state.pinned_message_id = Val.int 42 ∧
    (on_definir "Duda" "T1" 1 100 trFail w1).world.state.chat_id = Val.int 100 ∧
    Val.int 42 ≠ Val.int trFail.newMessageId := by
  decide

/-- C8 (amended): repair-on-failure is implemented only by `cmd_setup`:
when no display ref is recorded for the requesting chat, or the in-place
edit fails, `cmd_setup` sends a new display message, attempts to pin it,
adopts its identity as the new `display_ref` (overwriting the stale one)
and saves — never fatally.  The display refresh inside `on_definir` and
`cmd_reset`, by contrast, swallows an edit failure without repairing: it
never sends a new display message and leaves `display_ref` unchanged. -/
theorem C8_amended (msgChatId : Int) (tr : Transport) (w : World) :
    (((w.state.pinned_message_id.truthy && w.state.chat_id.eqInt msgChatId) = false
        ∨ tr.editOk = false) →
      (cmd_setup msgChatId tr w).world.state.pinned_message_id = Val.int tr.newMessageId ∧
      (cmd_setup msgChatId tr w).world.state.chat_id = Val.int msgChatId ∧
      (cmd_setup msgChatId tr w).world.stateFile
        = some (cmd_setup msgChatId tr w).world.state.save ∧
      TCall.newMessage tr.newMessageId ∈ (cmd_setup msgChatId tr w).calls ∧
      TCall.pin msgChatId tr.newMessageId ∈ (cmd_setup msgChatId tr w).calls) ∧
    (∀ novo now a c,
      (on_definir novo now a c tr w).world.state.pinned_message_id
          = w.state.pinned_message_id ∧
      (on_definir novo now a c tr w).world.state.chat_id = w.state.chat_id ∧
      ∀ m, TCall.newMessage m ∉ (on_definir novo now a c tr w).calls) ∧
    (∀ now a c,
      (cmd_reset now a c tr w).world.state.pinned_message_id = w.state.pinned_message_id ∧
      (cmd_reset now a c tr w).world.state.chat_id = w.state.chat_id ∧
      ∀ m, TCall.newMessage m ∉ (cmd_reset now a c tr w).calls) := by
  refine ⟨?_, ?_, ?_⟩
  · intro h
    by_cases hc : (w.state.pinned_message_id.truthy && w.state.chat_id.eqInt msgChatId) = true
    · have he : tr.editOk = false := by
        rcases h with h | h
        · rw [hc] at h; cases h
        · exact h
      simp [cmd_setup, hc, he]
    · simp [cmd_setup, hc]
  · intro novo now a c
    refine ⟨rfl, rfl, fun m => ?_⟩
    show TCall.newMessage m ∉ refresh_pinned _
    unfold refresh_pinned
    split <;> simp
  · intro now a c
    refine ⟨rfl, rfl, fun m => ?_⟩
    show TCall.newMessage m ∉ refresh_pinned _
    unfold refresh_pinned
    split <;> simp

/-- Witness for the amended C8: `/setup` in chat 100 with a failing edit
repairs the display ref to the freshly sent message 99, while a transfer
under the same failing transport keeps the stale ref. -/
theorem C8_amended_witness :
    (cmd_setup 100 trFail w1).world.state.pinned_message_id = Val.int trFail.newMessageId ∧
    (on_definir "Duda" "T1" 1 100 trFail w1).world.state.pinned_message_id
      = w1.state.pinned_message_id := by
  have h := C8_amended 100 trFail w1
  exact ⟨(h.1 (Or.inr rfl)).1, (h.2.1 "Duda" "T1" 1 100).1⟩

/-- C9: when the current holder is not `SECRETARIA`, the transfer keyboard
built by `on_transferir` omits the current holder from the selectable
targets, so a reaffirmation can be initiated through the keyboard only when
the key is at the default holder. -/
theorem C9_keyboard_excludes_holder (st : State)
    (h : st.current_holder ≠ Val.str SECRETARIA) :
    ∀ nome ∈ on_transferir_keyboard st, st.current_holder ≠ Val.str nome := by
  intro nome hmem
  have hek : st.current_holder.eqStr SECRETARIA = false := by
    cases heq : st.current_holder.eqStr SECRETARIA
    · rfl
    · exact absurd ((Val.eqStr_iff _ _).mp heq) h
  have hk : nome ∈ build_transfer_keyboard (some st.current_holder) := by
    simpa [on_transferir_keyboard, hek] using hmem
  rcases List.mem_filter.mp hk with ⟨hmem', hp⟩
  intro hcur
  by_cases hempty : nome = ""
  · subst hempty
    revert hmem'
    decide
  · rw [hcur] at hp
    simp [Val.truthy, Val.eqStr, hempty] at hp

/-- Witness for C9: with the key at Lucas, selecting Duda from the keyboard
is possible and Duda is not the current holder. -/
theorem C9_keyboard_excludes_holder_witness :
    st1.current_holder ≠ Val.str "Duda" :=
  C9_keyboard_excludes_holder st1 (by decide) "Duda" (by decide)

/-- C10: `State.load` validates nothing: any parsed JSON object whose keys
are exactly the `State` field names is returned with its values unchanged —
including a `current_holder` that is `null`, empty, or not in the roster —
so default-state recovery applies only to contents that fail to parse or to
construct. -/
theorem C10_load_no_validation (t : String) (ch ua pm ci : Val) :
    State.load t (some (.json (.obj
      [("current_holder", ch), ("updated_at_iso", ua),
       ("pinned_message_id", pm), ("chat_id", ci)])))
      = { current_holder := ch, updated_at_iso := ua,
          pinned_message_id := pm, chat_id := ci } := rfl

end Boti
